import Mathlib

/-!
Shallow embedding of `src/card_positioning.py` (repository GalacticGlum/FreeCell).

The module consists of two module-level constants and one function:

  COMPRESSED_CARD_GROUP_SIZE = 4
  COMPRESSION_FACTOR = card_height * (2 / 100)

  def card_layout(current_card_count, focus_card_index=0):
      allocations = [0] * current_card_count
      min_num_cards = ceil((window_height - card_height) / pixel_visibility)
      min_pixel_visibility = (window_height - card_height) / (max_cards - 1)
      excess = current_card_count - min_num_cards
      compression_visibility = max(pixel_visibility - excess * COMPRESSION_FACTOR, min_pixel_visibility)
      leftover_visibility = (window_height - card_height - compression_visibility * COMPRESSED_CARD_GROUP_SIZE) / (current_card_count - COMPRESSED_CARD_GROUP_SIZE - 1)
      for i in range(current_card_count):
          if i == current_card_count - 1: continue
          if current_card_count <= min_num_cards:
              shift = pixel_visibility
          else:
              shift = compression_visibility if current_card_count - i <= COMPRESSED_CARD_GROUP_SIZE else leftover_visibility
          allocations[i] = shift
      return allocations

The ambient values `window_height`, `card_height`, `pixel_visibility` and
`max_cards` are free (module-global) names in the source; they are modelled
here as an explicit `Config` record.  Real-valued quantities are modelled as
rationals; the card counts `current_card_count`, `max_cards` and the index
arithmetic are Python ints, modelled as `ℤ`.  Python raises
`ZeroDivisionError` on division by zero (also for floats); a call that
raises is modelled as `Except.error`.  Evaluation order of the divisions in
the source body is: the `min_num_cards` division (by `pixel_visibility`),
then the `min_pixel_visibility` division (by `max_cards - 1`), then the
`leftover_visibility` division (by `current_card_count - 5`), all before the
loop runs.
-/

/-- Ambient configuration of the source module: the free names
`window_height`, `card_height`, `pixel_visibility` (the spec's
`viewportHeight`, `cardHeight`, `defaultVisibility`) and `max_cards`
(the spec's `maxCards`). -/
structure Config where
  window_height : ℚ
  card_height : ℚ
  pixel_visibility : ℚ
  max_cards : ℤ
deriving DecidableEq

/-- Module constant `COMPRESSED_CARD_GROUP_SIZE = 4` (the spec's
`compressedGroupSize`). -/
def COMPRESSED_CARD_GROUP_SIZE : ℤ := 4

/-- Module constant `COMPRESSION_FACTOR = card_height * (2 / 100)` (the
spec's `compressionFactor`, derived from the card height). -/
def COMPRESSION_FACTOR (cfg : Config) : ℚ :=
  cfg.card_height * (2 / 100)

/-- Error signals.  `zeroDivisionError` models Python's built-in
`ZeroDivisionError`, the only error the source can raise.
`invalidConfiguration` and `invalidCardCount` are the distinct named error
signals the spec's error taxonomy (§7) asks for; the source never produces
them, and they are declared here so statements about them can be made. -/
inductive LayoutError where
  | zeroDivisionError
  | invalidConfiguration
  | invalidCardCount
deriving DecidableEq

/-- Source line `min_num_cards = ceil((window_height - card_height) / pixel_visibility)`
(the spec's `minFitCount`). -/
def min_num_cards (cfg : Config) : ℤ :=
  ⌈(cfg.window_height - cfg.card_height) / cfg.pixel_visibility⌉

/-- Source line `min_pixel_visibility = (window_height - card_height) / (max_cards - 1)`
(the spec's `minVisibility`); `max_cards - 1` is integer arithmetic in the
source, the division is real-valued. -/
def min_pixel_visibility (cfg : Config) : ℚ :=
  (cfg.window_height - cfg.card_height) / ((cfg.max_cards - 1 : ℤ) : ℚ)

/-- Source line `excess = current_card_count - min_num_cards`. -/
def excess (cfg : Config) (current_card_count : ℤ) : ℤ :=
  current_card_count - min_num_cards cfg

/-- Source line
`compression_visibility = max(pixel_visibility - excess * COMPRESSION_FACTOR, min_pixel_visibility)`
(the spec's `compressedVisibility`). -/
def compression_visibility (cfg : Config) (current_card_count : ℤ) : ℚ :=
  max (cfg.pixel_visibility - (excess cfg current_card_count : ℚ) * COMPRESSION_FACTOR cfg)
    (min_pixel_visibility cfg)

/-- Source line
`leftover_visibility = (window_height - card_height - compression_visibility * COMPRESSED_CARD_GROUP_SIZE) / (current_card_count - COMPRESSED_CARD_GROUP_SIZE - 1)`
(the spec's `leftoverVisibility`); the denominator is integer arithmetic in
the source, the division is real-valued. -/
def leftover_visibility (cfg : Config) (current_card_count : ℤ) : ℚ :=
  (cfg.window_height - cfg.card_height -
      compression_visibility cfg current_card_count * (COMPRESSED_CARD_GROUP_SIZE : ℚ)) /
    ((current_card_count - COMPRESSED_CARD_GROUP_SIZE - 1 : ℤ) : ℚ)

/-- Body of the `for i in range(current_card_count)` loop: the value left in
`allocations[i]`.  The bottom card is skipped by `continue`, so its initial
value `0` remains; otherwise the uncompressed branch assigns
`pixel_visibility`, and the compressed branch assigns
`compression_visibility` when `current_card_count - i <= COMPRESSED_CARD_GROUP_SIZE`
and `leftover_visibility` otherwise. -/
def allocation (cfg : Config) (current_card_count : ℤ) (i : ℕ) : ℚ :=
  if (i : ℤ) = current_card_count - 1 then 0
  else if current_card_count ≤ min_num_cards cfg then cfg.pixel_visibility
  else if current_card_count - (i : ℤ) ≤ COMPRESSED_CARD_GROUP_SIZE then
    compression_visibility cfg current_card_count
  else leftover_visibility cfg current_card_count

/-- The function `card_layout(current_card_count, focus_card_index=0)`.
Python's `[0] * n` and `range(n)` are empty for `n ≤ 0`, hence
`Int.toNat`.  The three guarded divisions model the three places the source
divides, in source order: `ZeroDivisionError` is raised when
`pixel_visibility == 0`, else when `max_cards - 1 == 0`, else when
`current_card_count - COMPRESSED_CARD_GROUP_SIZE - 1 == 0`; otherwise the
loop fills the result list.  `focus_card_index` is a parameter of the source
function and is never read by the body. -/
def card_layout (cfg : Config) (current_card_count : ℤ) (focus_card_index : ℤ) :
    Except LayoutError (List ℚ) :=
  if cfg.pixel_visibility = 0 then .error .zeroDivisionError
  else if cfg.max_cards - 1 = 0 then .error .zeroDivisionError
  else if current_card_count - COMPRESSED_CARD_GROUP_SIZE - 1 = 0 then .error .zeroDivisionError
  else .ok ((List.range current_card_count.toNat).map (allocation cfg current_card_count))

/-- Concrete scenario configuration of spec §8: `viewportHeight=800,
cardHeight=200, defaultVisibility=100, maxCards=10` (so
`compressionFactor = 200 * 2/100 = 4`). -/
def scenarioConfig : Config :=
  { window_height := 800, card_height := 200, pixel_visibility := 100, max_cards := 10 }

lemma scenario_min_num_cards : min_num_cards scenarioConfig = 6 := by
  have h : (scenarioConfig.window_height - scenarioConfig.card_height) /
      scenarioConfig.pixel_visibility = (6 : ℚ) := by
    norm_num [scenarioConfig]
  rw [min_num_cards, h]
  simp

lemma scenario_cv12 : compression_visibility scenarioConfig 12 = 76 := by
  rw [compression_visibility, excess, scenario_min_num_cards]
  rw [max_eq_left]
  · norm_num [scenarioConfig, COMPRESSION_FACTOR]
  · norm_num [scenarioConfig, COMPRESSION_FACTOR, min_pixel_visibility]

lemma scenario_lv12 : leftover_visibility scenarioConfig 12 = 296 / 7 := by
  rw [leftover_visibility, scenario_cv12]
  norm_num [scenarioConfig, COMPRESSED_CARD_GROUP_SIZE]

lemma range_twelve : List.range 12 = [0, 1, 2, 3, 4, 5, 6, 7, 8, 9, 10, 11] := rfl

lemma scenario_eval6 :
    card_layout scenarioConfig 6 0 = .ok [100, 100, 100, 100, 100, 0] := by
  rw [card_layout, if_neg (by norm_num [scenarioConfig]), if_neg (by norm_num [scenarioConfig]),
    if_neg (by norm_num [COMPRESSED_CARD_GROUP_SIZE])]
  rw [show ((6 : ℤ).toNat) = 6 from rfl]
  rw [show List.range 6 = [0, 1, 2, 3, 4, 5] from rfl]
  simp only [List.map, allocation, scenario_min_num_cards]
  norm_num [scenarioConfig, COMPRESSED_CARD_GROUP_SIZE]

lemma scenario_eval12 :
    card_layout scenarioConfig 12 0 =
      .ok [296 / 7, 296 / 7, 296 / 7, 296 / 7, 296 / 7, 296 / 7, 296 / 7, 296 / 7,
        76, 76, 76, 0] := by
  rw [card_layout, if_neg (by norm_num [scenarioConfig]), if_neg (by norm_num [scenarioConfig]),
    if_neg (by norm_num [COMPRESSED_CARD_GROUP_SIZE])]
  rw [show ((12 : ℤ).toNat) = 12 from rfl, range_twelve]
  simp only [List.map, allocation, scenario_min_num_cards, scenario_cv12, scenario_lv12]
  norm_num [scenarioConfig, COMPRESSED_CARD_GROUP_SIZE]

/-- Configuration showing a negative `leftover_visibility`: default spacing
`300` is far above what the viewport can hold, so the compressed group
alone overshoots the available `600` pixels. -/
def overfullConfig : Config :=
  { window_height := 800, card_height := 200, pixel_visibility := 300, max_cards := 10 }

/-- Degenerate configuration with `max_cards = 1` (spec §7, §8). -/
def maxOneConfig : Config :=
  { window_height := 800, card_height := 200, pixel_visibility := 100, max_cards := 1 }

lemma overfull_min_num_cards : min_num_cards overfullConfig = 2 := by
  have h : (overfullConfig.window_height - overfullConfig.card_height) /
      overfullConfig.pixel_visibility = (2 : ℚ) := by
    norm_num [overfullConfig]
  rw [min_num_cards, h]
  simp

lemma overfull_cv6 : compression_visibility overfullConfig 6 = 284 := by
  rw [compression_visibility, excess, overfull_min_num_cards]
  rw [max_eq_left]
  · norm_num [overfullConfig, COMPRESSION_FACTOR]
  · norm_num [overfullConfig, COMPRESSION_FACTOR, min_pixel_visibility]

lemma overfull_lv6 : leftover_visibility overfullConfig 6 = -536 := by
  rw [leftover_visibility, overfull_cv6]
  norm_num [overfullConfig, COMPRESSED_CARD_GROUP_SIZE]

lemma overfull_eval6 :
    card_layout overfullConfig 6 0 = .ok [-536, -536, 284, 284, 284, 0] := by
  rw [card_layout, if_neg (by norm_num [overfullConfig]), if_neg (by norm_num [overfullConfig]),
    if_neg (by norm_num [COMPRESSED_CARD_GROUP_SIZE])]
  rw [show ((6 : ℤ).toNat) = 6 from rfl]
  rw [show List.range 6 = [0, 1, 2, 3, 4, 5] from rfl]
  simp only [List.map, allocation, overfull_min_num_cards, overfull_cv6, overfull_lv6]
  norm_num [COMPRESSED_CARD_GROUP_SIZE]

/-- Inverting a successful run of `card_layout`: the result is the mapped
loop body over `range`, and the `leftover_visibility` denominator was
nonzero. -/
lemma card_layout_ok_elim {cfg : Config} {n f : ℤ} {l : List ℚ}
    (h : card_layout cfg n f = Except.ok l) :
    l = (List.range n.toNat).map (allocation cfg n) ∧ n ≠ 5 := by
  rw [card_layout] at h
  split_ifs at h with h1 h2 h3
  · injection h with h4
    refine ⟨h4.symm, fun hn => ?_⟩
    simp only [COMPRESSED_CARD_GROUP_SIZE] at h3
    omega

/-- Mapping a function over `range k` when the function is constant below
`k`. -/
lemma map_range_eq_replicate (k : ℕ) (g : ℕ → ℚ) (c : ℚ) (hg : ∀ i < k, g i = c) :
    (List.range k).map g = List.replicate k c := by
  induction k with
  | zero => simp
  | succ k ih =>
    rw [List.range_succ, List.map_append, ih fun i hi => hg i (by omega),
      List.replicate_succ']
    simp [hg k (by omega)]

lemma getD_map_range (m i : ℕ) (g : ℕ → ℚ) (hi : i < m) :
    ((List.range m).map g).getD i 0 = g i := by
  rw [List.getD_eq_getElem?_getD, List.getElem?_map, List.getElem?_range hi]
  rfl

/-- C3 (counterexample to the claim as stated): with the scenario
configuration, `cardCount = 5` lies in the uncompressed range
(`5 ≤ minFitCount = 6`), yet `card_layout` raises `ZeroDivisionError`
instead of returning normally, because `leftover_visibility` is computed
before the loop regardless of the branch. -/
theorem card_layout_five_in_fit_range_raises :
    (5 : ℤ) ≤ min_num_cards scenarioConfig ∧
    card_layout scenarioConfig 5 0 = Except.error LayoutError.zeroDivisionError := by
  constructor
  · rw [scenario_min_num_cards]
    norm_num
  · rw [card_layout, if_neg (by norm_num [scenarioConfig]), if_neg (by norm_num [scenarioConfig]),
      if_pos (by norm_num [COMPRESSED_CARD_GROUP_SIZE])]

/-- C3 (amended): the source computes `leftover_visibility` unconditionally
before the loop, so for `current_card_count = 5` the division by
`5 - COMPRESSED_CARD_GROUP_SIZE - 1 = 0` is always reached (whenever the two
earlier divisions succeed) and `card_layout` raises `ZeroDivisionError`,
even when `5 ≤ min_num_cards` would select the uncompressed branch. -/
theorem card_layout_five_raises (cfg : Config) (f : ℤ)
    (hp : cfg.pixel_visibility ≠ 0) (hm : cfg.max_cards ≠ 1) :
    card_layout cfg 5 f = Except.error LayoutError.zeroDivisionError := by
  rw [card_layout, if_neg hp, if_neg (by omega),
    if_pos (by norm_num [COMPRESSED_CARD_GROUP_SIZE])]

/-- Witness for `card_layout_five_raises` at the scenario configuration. -/
theorem card_layout_five_raises_witness :
    card_layout scenarioConfig 5 3 = Except.error LayoutError.zeroDivisionError :=
  card_layout_five_raises scenarioConfig 3 (by norm_num [scenarioConfig])
    (by norm_num [scenarioConfig])

/-- C5 (counterexample to the claim as stated): for `cardCount = 0` the
function silently returns the empty list; it does not fail with
`InvalidCardCount` (nor with any other error). -/
theorem card_layout_zero_count_returns_empty :
    card_layout scenarioConfig 0 0 = Except.ok [] ∧
    card_layout scenarioConfig 0 0 ≠ Except.error LayoutError.invalidCardCount := by
  have h : card_layout scenarioConfig 0 0 = Except.ok [] := by
    rw [card_layout, if_neg (by norm_num [scenarioConfig]), if_neg (by norm_num [scenarioConfig]),
      if_neg (by norm_num [COMPRESSED_CARD_GROUP_SIZE])]
    rfl
  refine ⟨h, ?_⟩
  rw [h]
  exact fun hc => Except.noConfusion hc

/-- C5 (amended): for every `current_card_count ≤ 0` (and a configuration
that passes the two earlier divisions), `card_layout` returns the empty
sequence without any error signal: Python's `[0] * n` and `range(n)` are
simply empty for nonpositive `n`. -/
theorem card_layout_nonpositive_count_empty (cfg : Config) (n f : ℤ) (hn : n ≤ 0)
    (hp : cfg.pixel_visibility ≠ 0) (hm : cfg.max_cards ≠ 1) :
    card_layout cfg n f = Except.ok [] := by
  rw [card_layout, if_neg hp, if_neg (by omega),
    if_neg (by simp only [COMPRESSED_CARD_GROUP_SIZE]; omega)]
  rw [Int.toNat_of_nonpos hn]
  rfl

/-- Witness for `card_layout_nonpositive_count_empty` at count `-3`. -/
theorem card_layout_nonpositive_count_empty_witness :
    card_layout scenarioConfig (-3) 1 = Except.ok [] :=
  card_layout_nonpositive_count_empty scenarioConfig (-3) 1 (by norm_num)
    (by norm_num [scenarioConfig]) (by norm_num [scenarioConfig])

/-- C6 (counterexample to the claim as stated): with `max_cards = 1` the
function raises Python's `ZeroDivisionError`; it does not produce the
clearly identified `InvalidConfiguration` signal the spec asks for. -/
theorem card_layout_max_cards_one_error_kind :
    card_layout maxOneConfig 6 0 = Except.error LayoutError.zeroDivisionError ∧
    card_layout maxOneConfig 6 0 ≠ Except.error LayoutError.invalidConfiguration := by
  have h : card_layout maxOneConfig 6 0 = Except.error LayoutError.zeroDivisionError := by
    rw [card_layout, if_neg (by norm_num [maxOneConfig]), if_pos (by norm_num [maxOneConfig])]
  refine ⟨h, ?_⟩
  rw [h]
  simp

/-- C6 (amended): when `max_cards = 1` or `current_card_count = 5`,
`card_layout` raises `ZeroDivisionError` (the one arithmetic error Python
produces for the degenerate divisors); in particular no offset sequence,
finite or not, is returned in either case. -/
theorem card_layout_degenerate_zero_division (cfg : Config) (n f : ℤ)
    (h : cfg.max_cards = 1 ∨ n = 5) :
    card_layout cfg n f = Except.error LayoutError.zeroDivisionError := by
  rw [card_layout]
  split_ifs with h1 h2 h3
  · rfl
  · rfl
  · rfl
  · exfalso
    simp only [COMPRESSED_CARD_GROUP_SIZE] at h3
    rcases h with h | h
    · exact h2 (by omega)
    · exact h3 (by omega)

/-- Witness for `card_layout_degenerate_zero_division` with `max_cards = 1`. -/
theorem card_layout_degenerate_zero_division_witness :
    card_layout maxOneConfig 7 0 = Except.error LayoutError.zeroDivisionError :=
  card_layout_degenerate_zero_division maxOneConfig 7 0 (Or.inl rfl)

/-- C7: whenever `1 ≤ current_card_count ≤ min_num_cards` and the call
returns a sequence, every non-bottom entry (index `i < current_card_count - 1`)
equals `pixel_visibility` (the spec's `defaultVisibility`) exactly. -/
theorem card_layout_uncompressed_offsets (cfg : Config) (n f : ℤ) (l : List ℚ) (i : ℕ)
    (h1 : 1 ≤ n) (h2 : n ≤ min_num_cards cfg) (h : card_layout cfg n f = Except.ok l)
    (hi : (i : ℤ) < n - 1) : l.getD i 0 = cfg.pixel_visibility := by
  obtain ⟨rfl, -⟩ := card_layout_ok_elim h
  rw [getD_map_range _ _ _ (by omega)]
  simp only [allocation]
  rw [if_neg (by omega), if_pos h2]

/-- Witness for `card_layout_uncompressed_offsets` at the scenario, count 6,
index 0. -/
theorem card_layout_uncompressed_offsets_witness :
    ([100, 100, 100, 100, 100, (0 : ℚ)]).getD 0 0 = scenarioConfig.pixel_visibility :=
  card_layout_uncompressed_offsets scenarioConfig 6 0 [100, 100, 100, 100, 100, 0] 0
    (by norm_num) (by simp [scenario_min_num_cards]) scenario_eval6 (by norm_num)

/-- C8: every successful call with `current_card_count ≥ 1` returns a
sequence of length exactly `current_card_count` whose last element is
exactly `0`. -/
theorem card_layout_length_and_last (cfg : Config) (n f : ℤ) (l : List ℚ)
    (h1 : 1 ≤ n) (h : card_layout cfg n f = Except.ok l) :
    (l.length : ℤ) = n ∧ l.getLast? = some 0 := by
  obtain ⟨rfl, -⟩ := card_layout_ok_elim h
  constructor
  · rw [List.length_map, List.length_range]
    omega
  · obtain ⟨k, hk⟩ : ∃ k, n.toNat = k + 1 := ⟨n.toNat - 1, by omega⟩
    rw [hk, List.range_succ, List.map_append, List.map_cons, List.map_nil,
      List.getLast?_concat]
    simp only [allocation]
    rw [if_pos (by omega)]

/-- Witness for `card_layout_length_and_last` at the scenario, count 6. -/
theorem card_layout_length_and_last_witness :
    (([100, 100, 100, 100, 100, (0 : ℚ)]).length : ℤ) = 6 ∧
    ([100, 100, 100, 100, 100, (0 : ℚ)]).getLast? = some 0 :=
  card_layout_length_and_last scenarioConfig 6 0 [100, 100, 100, 100, 100, 0]
    (by norm_num) scenario_eval6

/-- C9: the computation never reads `focus_card_index`, so two calls that
differ only in it return identical results; together with purity of the
embedding this is the determinism stated by the spec. -/
theorem card_layout_ignores_focus (cfg : Config) (n f1 f2 : ℤ) :
    card_layout cfg n f1 = card_layout cfg n f2 := rfl

/-- C10: a single card is the bottom card, so `card_layout` returns `[0]`
without error for any configuration satisfying the validity constraints;
the `leftover_visibility` denominator is `1 - 4 - 1 = -4 ≠ 0`. -/
theorem card_layout_single_card (cfg : Config) (f : ℤ)
    (hwc : cfg.card_height < cfg.window_height) (hch : 0 < cfg.card_height)
    (hmc : 1 < cfg.max_cards) (hpv : 0 < cfg.pixel_visibility) :
    card_layout cfg 1 f = Except.ok [0] := by
  rw [card_layout, if_neg (ne_of_gt hpv), if_neg (by omega),
    if_neg (by norm_num [COMPRESSED_CARD_GROUP_SIZE])]
  rw [show ((1 : ℤ).toNat) = 1 from rfl, show List.range 1 = [0] from rfl,
    List.map_cons, List.map_nil]
  simp only [allocation]
  rw [if_pos (by norm_num)]

/-- Witness for `card_layout_single_card` at the scenario configuration. -/
theorem card_layout_single_card_witness :
    card_layout scenarioConfig 1 5 = Except.ok [0] :=
  card_layout_single_card scenarioConfig 5 (by norm_num [scenarioConfig])
    (by norm_num [scenarioConfig]) (by norm_num [scenarioConfig])
    (by norm_num [scenarioConfig])

/-- C1 (counterexample to the claim as stated): the scenario with
`cardCount = 6 > 5` returns `[100,100,100,100,100,0]`, whose sum is `500`,
not `viewportHeight - cardHeight = 600`. -/
theorem card_layout_sum_not_viewport :
    card_layout scenarioConfig 6 0 = Except.ok [100, 100, 100, 100, 100, 0] ∧
    ([100, 100, 100, 100, 100, (0 : ℚ)]).sum ≠
      scenarioConfig.window_height - scenarioConfig.card_height :=
  ⟨scenario_eval6, by norm_num [scenarioConfig]⟩

/-- C1 (amended): for `current_card_count > 5`, the sum of the returned
offsets is `(current_card_count - 1) * pixel_visibility` in the
uncompressed branch, and
`(window_height - card_height) + (leftover_visibility - compression_visibility)`
in the compressed branch: the loop assigns `compression_visibility` to only
three gaps (the bottom card keeps `0`) and `leftover_visibility` to
`current_card_count - 4` gaps, so the total misses
`window_height - card_height` by `leftover_visibility - compression_visibility`. -/
theorem card_layout_sum_eq (cfg : Config) (n f : ℤ) (l : List ℚ) (h5 : 5 < n)
    (h : card_layout cfg n f = Except.ok l) :
    l.sum = if n ≤ min_num_cards cfg then ((n : ℚ) - 1) * cfg.pixel_visibility
      else cfg.window_height - cfg.card_height +
        (leftover_visibility cfg n - compression_visibility cfg n) := by
  obtain ⟨rfl, -⟩ := card_layout_ok_elim h
  by_cases hcase : n ≤ min_num_cards cfg
  · rw [if_pos hcase]
    obtain ⟨k, hk⟩ : ∃ k, n.toNat = k + 1 := ⟨n.toNat - 1, by omega⟩
    have hkn : (k : ℤ) = n - 1 := by omega
    rw [hk, List.range_succ, List.map_append, List.map_cons, List.map_nil, List.sum_append]
    rw [map_range_eq_replicate k (allocation cfg n) cfg.pixel_visibility
      (fun i hi => by
        simp only [allocation]
        rw [if_neg (by omega), if_pos hcase])]
    have halloc : allocation cfg n k = 0 := by
      simp only [allocation]
      rw [if_pos (by omega)]
    rw [halloc, List.sum_replicate, List.sum_cons, List.sum_nil, nsmul_eq_mul]
    have hkq : ((k : ℕ) : ℚ) = (n : ℚ) - 1 := by exact_mod_cast hkn
    rw [hkq]
    ring
  · rw [if_neg hcase]
    obtain ⟨k, hk⟩ : ∃ k, n.toNat = k + 4 := ⟨n.toNat - 4, by omega⟩
    have hkn : (k : ℤ) = n - 4 := by omega
    have hr : List.range (k + 4) = List.range k ++ [k, k + 1, k + 1 + 1, k + 1 + 1 + 1] := by
      rw [show k + 4 = k + 1 + 1 + 1 + 1 from rfl, List.range_succ, List.range_succ,
        List.range_succ, List.range_succ]
      simp [List.append_assoc]
    rw [hk, hr, List.map_append, List.sum_append, List.map_cons, List.map_cons, List.map_cons,
      List.map_cons, List.map_nil]
    have ha0 : allocation cfg n k = compression_visibility cfg n := by
      simp only [allocation, COMPRESSED_CARD_GROUP_SIZE]
      rw [if_neg (by omega), if_neg hcase, if_pos (by omega)]
    have ha1 : allocation cfg n (k + 1) = compression_visibility cfg n := by
      simp only [allocation, COMPRESSED_CARD_GROUP_SIZE]
      rw [if_neg (by omega), if_neg hcase, if_pos (by omega)]
    have ha2 : allocation cfg n (k + 1 + 1) = compression_visibility cfg n := by
      simp only [allocation, COMPRESSED_CARD_GROUP_SIZE]
      rw [if_neg (by omega), if_neg hcase, if_pos (by omega)]
    have ha3 : allocation cfg n (k + 1 + 1 + 1) = 0 := by
      simp only [allocation]
      rw [if_pos (by omega)]
    rw [map_range_eq_replicate k (allocation cfg n) (leftover_visibility cfg n)
      (fun i hi => by
        simp only [allocation, COMPRESSED_CARD_GROUP_SIZE]
        rw [if_neg (by omega), if_neg hcase, if_neg (by omega)])]
    rw [ha0, ha1, ha2, ha3, List.sum_replicate, List.sum_cons, List.sum_cons, List.sum_cons,
      List.sum_cons, List.sum_nil, nsmul_eq_mul]
    have hkq : ((k : ℕ) : ℚ) = (n : ℚ) - 4 := by exact_mod_cast hkn
    have hne : ((n : ℚ)) - 4 - 1 ≠ 0 := by
      have h6 : (5 : ℚ) < (n : ℚ) := by exact_mod_cast h5
      intro hc
      linarith
    have hlv : leftover_visibility cfg n * ((n : ℚ) - 4 - 1) =
        cfg.window_height - cfg.card_height - compression_visibility cfg n * 4 := by
      rw [leftover_visibility, COMPRESSED_CARD_GROUP_SIZE]
      push_cast
      exact div_mul_cancel₀ _ hne
    rw [hkq]
    linear_combination hlv

/-- Witness for `card_layout_sum_eq` at the scenario, count 12. -/
theorem card_layout_sum_eq_witness :
    ([296 / 7, 296 / 7, 296 / 7, 296 / 7, 296 / 7, 296 / 7, 296 / 7, 296 / 7,
        76, 76, 76, (0 : ℚ)]).sum =
      if (12 : ℤ) ≤ min_num_cards scenarioConfig then
        ((12 : ℚ) - 1) * scenarioConfig.pixel_visibility
      else scenarioConfig.window_height - scenarioConfig.card_height +
        (leftover_visibility scenarioConfig 12 - compression_visibility scenarioConfig 12) :=
  card_layout_sum_eq scenarioConfig 12 0
    [296 / 7, 296 / 7, 296 / 7, 296 / 7, 296 / 7, 296 / 7, 296 / 7, 296 / 7, 76, 76, 76, 0]
    (by norm_num) scenario_eval12

/-- C2 (counterexample to the claim as stated): in the `cardCount = 12`
scenario the offset at index 7 is `leftover_visibility = 296/7`, not `76`:
only indices 8, 9, 10 receive the compressed visibility. -/
theorem card_layout_scenario_index7_ne :
    card_layout scenarioConfig 12 0 =
      Except.ok [296 / 7, 296 / 7, 296 / 7, 296 / 7, 296 / 7, 296 / 7, 296 / 7, 296 / 7,
        76, 76, 76, 0] ∧
    ([296 / 7, 296 / 7, 296 / 7, 296 / 7, 296 / 7, 296 / 7, 296 / 7, 296 / 7,
        76, 76, 76, (0 : ℚ)]).getD 7 0 ≠ 76 :=
  ⟨scenario_eval12, by norm_num [List.getD_cons_succ, List.getD_cons_zero]⟩

/-- C2 (amended): in the spec's concrete scenario, `card_layout 6` returns
`[100,100,100,100,100,0]`; `card_layout 12` has compressed visibility `76`
and leftover visibility `296/7`, the offsets at indices 8, 9, 10 equal `76`,
the offsets at indices 0..7 equal `296/7`, and the last element is `0`. -/
theorem card_layout_scenario_values :
    card_layout scenarioConfig 6 0 = Except.ok [100, 100, 100, 100, 100, 0] ∧
    card_layout scenarioConfig 12 0 =
      Except.ok [296 / 7, 296 / 7, 296 / 7, 296 / 7, 296 / 7, 296 / 7, 296 / 7, 296 / 7,
        76, 76, 76, 0] ∧
    compression_visibility scenarioConfig 12 = 76 ∧
    leftover_visibility scenarioConfig 12 = 296 / 7 :=
  ⟨scenario_eval6, scenario_eval12, scenario_cv12, scenario_lv12⟩

/-- C4 (counterexample to the claim as stated): with viewport `800/200`,
default visibility `300`, `max_cards = 10` (all within the claim's validity
constraints) and `cardCount = 6`, the two leftover entries are `-536 < 0`. -/
theorem card_layout_negative_offset_example :
    card_layout overfullConfig 6 0 = Except.ok [-536, -536, 284, 284, 284, 0] ∧
    (-536 : ℚ) < 0 :=
  ⟨overfull_eval6, by norm_num⟩

/-- C4 (amended): under the claim's validity constraints and the additional
hypothesis that the compressed group fits,
`compression_visibility * 4 ≤ window_height - card_height` (which fails in
`card_layout_negative_offset_example`), every element of the returned
sequence is non-negative. -/
theorem card_layout_nonneg (cfg : Config) (n f : ℤ) (l : List ℚ) (x : ℚ)
    (hn : 1 ≤ n) (hwc : cfg.card_height < cfg.window_height) (hch : 0 < cfg.card_height)
    (hmc : 1 < cfg.max_cards) (hpv : 0 < cfg.pixel_visibility) (hn5 : n ≠ 5)
    (hcv : compression_visibility cfg n * 4 ≤ cfg.window_height - cfg.card_height)
    (h : card_layout cfg n f = Except.ok l) (hx : x ∈ l) : 0 ≤ x := by
  obtain ⟨rfl, -⟩ := card_layout_ok_elim h
  obtain ⟨i, hi, rfl⟩ := List.mem_map.mp hx
  rw [List.mem_range] at hi
  have hminpv : 0 < min_pixel_visibility cfg := by
    rw [min_pixel_visibility]
    apply div_pos (by linarith)
    have h1 : (0 : ℤ) < cfg.max_cards - 1 := by omega
    exact_mod_cast h1
  simp only [allocation]
  split_ifs with h1 h2 h3
  · exact le_refl 0
  · exact le_of_lt hpv
  · have hle : min_pixel_visibility cfg ≤ compression_visibility cfg n := by
      rw [compression_visibility]
      exact le_max_right _ _
    linarith
  · have hn6 : 6 ≤ n := by
      simp only [COMPRESSED_CARD_GROUP_SIZE] at h3
      omega
    rw [leftover_visibility, COMPRESSED_CARD_GROUP_SIZE]
    apply div_nonneg
    · push_cast
      linarith
    · have h4 : (0 : ℤ) ≤ n - 4 - 1 := by omega
      exact_mod_cast h4

/-- Witness for `card_layout_nonneg` at the scenario, count 12, element 76. -/
theorem card_layout_nonneg_witness : (0 : ℚ) ≤ 76 :=
  card_layout_nonneg scenarioConfig 12 0
    [296 / 7, 296 / 7, 296 / 7, 296 / 7, 296 / 7, 296 / 7, 296 / 7, 296 / 7, 76, 76, 76, 0]
    76 (by norm_num) (by norm_num [scenarioConfig]) (by norm_num [scenarioConfig])
    (by norm_num [scenarioConfig]) (by norm_num [scenarioConfig]) (by norm_num)
    (by rw [scenario_cv12]; norm_num [scenarioConfig]) scenario_eval12 (by norm_num)
